import Mathlib

/-!
Shallow embedding of `src/chroma-viewer/viewer.py` (the `display_collections`
function and its query / browse sub-blocks).

Modelling conventions:
* a Python list is a Lean `List`; Python `None` is `Option.none`;
* Python floats are modelled as exact rationals (`ℚ`); the `:.4f` rendering
  of a statistic is modelled by `fmt4`, rounding to four decimal places;
* the external collaborators — the chromadb client (`collection.get`,
  `collection.query`) and the standard library's `json.loads` — are passed
  in as explicit function parameters / response records;
* a raised-and-uncaught-in-scope Python exception is an `Except.error`.
-/

namespace ChromaViewer

/-- Python truthiness of a value that is either `None` or a list:
`None` and the empty list are falsy, a non-empty list is truthy. -/
def pyTruthy {α : Type} (o : Option (List α)) : Bool :=
  match o with
  | none => false
  | some xs => !xs.isEmpty

/-- The expression `len(x) if x else 0` used at viewer.py lines 62-65 to
compute the length of each of the four fetched fields. -/
def lenOrZero {α : Type} (o : Option (List α)) : Nat :=
  if pyTruthy o then (o.getD []).length else 0

/-- The per-item summary `len(emb) if emb else 0` of viewer.py line 86:
one embedding entry may itself be `None` or a vector, and it is summarised
by its component count. -/
def embCount {ε : Type} (emb : Option (List ε)) : Nat :=
  if pyTruthy emb then (emb.getD []).length else 0

/-- The `df_data` dictionary built at viewer.py lines 77-86: each of the four
possible columns is either present (`some`) or absent (`none`). -/
structure ChromaTable (ι δ μ : Type) where
  ids : Option (List ι)
  documents : Option (List δ)
  metadatas : Option (List μ)
  embeddings_count : Option (List Nat)

/-- Outcome of the per-collection reconciliation (viewer.py lines 71-90 and
the `else` branch at lines 227-228). -/
inductive ReconcileResult (ι δ μ : Type) where
  | emptyCollection
  | inconsistentLengths
  | table (t : ChromaTable ι δ μ)

/-- The expression `max(lengths.values())` of viewer.py line 71, over the
four lengths computed at lines 61-66 (insertion order: ids, embeddings,
metadatas, documents; `max` over a dict's values is order-independent). -/
def maxLenOf {ι δ μ ε : Type} (ids : Option (List ι)) (documents : Option (List δ))
    (metadatas : Option (List μ)) (embeddings : Option (List (Option (List ε)))) : Nat :=
  max (max (lenOrZero ids) (lenOrZero embeddings))
    (max (lenOrZero metadatas) (lenOrZero documents))

/-- One guarded column of the `df_data` dictionary, viewer.py lines 78-83:
`if field and len(field) == max_length: df_data[name] = field`. -/
def dfCol {α : Type} (o : Option (List α)) (n : Nat) : Option (List α) :=
  if pyTruthy o = true ∧ (o.getD []).length = n then o else none

/-- The guarded embeddings column of viewer.py lines 85-86:
`if embeddings and len(embeddings) == max_length:
df_data['embeddings_count'] = [len(emb) if emb else 0 for emb in embeddings]`. -/
def dfEmbCol {ε : Type} (e : Option (List (Option (List ε)))) (n : Nat) : Option (List Nat) :=
  if pyTruthy e = true ∧ (e.getD []).length = n then
    some ((e.getD []).map embCount)
  else none

/-- The Reconciler, viewer.py lines 61-90 together with the two stop branches
(line 73 `This collection is empty`, line 228 `Could not create DataFrame due
to inconsistent data lengths`).  Each column is included exactly under the
source's guard `field and len(field) == max_length`; embeddings are replaced
by their per-item counts (line 86). -/
def reconcile {ι δ μ ε : Type} (ids : Option (List ι)) (documents : Option (List δ))
    (metadatas : Option (List μ)) (embeddings : Option (List (Option (List ε)))) :
    ReconcileResult ι δ μ :=
  let max_length := maxLenOf ids documents metadatas embeddings
  if max_length = 0 then
    ReconcileResult.emptyCollection
  else
    if (dfCol ids max_length).isSome = true ∨ (dfCol documents max_length).isSome = true ∨
        (dfCol metadatas max_length).isSome = true ∨
        (dfEmbCol embeddings max_length).isSome = true then
      ReconcileResult.table
        { ids := dfCol ids max_length, documents := dfCol documents max_length,
          metadatas := dfCol metadatas max_length,
          embeddings_count := dfEmbCol embeddings max_length }
    else
      ReconcileResult.inconsistentLengths

/-- The survival guard `field and len(field) == max_length` of viewer.py
lines 78-85, as a predicate on one field and the computed maximum. -/
def survives {α : Type} (o : Option (List α)) (n : Nat) : Prop :=
  pyTruthy o = true ∧ (o.getD []).length = n

/-- The Python exceptions that the embedded fragment can raise. -/
inductive PyError where
  | typeError

/-- Python `len(x)` where `x` is `None` or a list: `len(None)` raises a
`TypeError`. -/
def pyLen {α : Type} (o : Option (List α)) : Except PyError Nat :=
  match o with
  | none => Except.error PyError.typeError
  | some xs => Except.ok xs.length

/-- The per-collection display pipeline of viewer.py lines 50-90: the count
banner at line 58 evaluates `len(ids)` unguarded (raising a `TypeError` when
`ids` is `None`), then the Reconciler of lines 61-90 runs. -/
def displayCollection {ι δ μ ε : Type} (ids : Option (List ι)) (documents : Option (List δ))
    (metadatas : Option (List μ)) (embeddings : Option (List (Option (List ε)))) :
    Except PyError (ReconcileResult ι δ μ) :=
  match pyLen ids with
  | Except.error e => Except.error e
  | Except.ok _ => Except.ok (reconcile ids documents metadatas embeddings)

/-- JSON values, the possible results of `json.loads` (viewer.py lines 167,
174).  Numbers are modelled as integers; no claim depends on fractional
filter values. -/
inductive Json where
  | null
  | jbool (b : Bool)
  | jnum (n : Int)
  | jstr (s : String)
  | jarr (elems : List Json)
  | jobj (fields : List (String × Json))

/-- Python truthiness of a decoded JSON value (`if where_dict:` at
viewer.py line 184): `None`, `False`, `0`, and empty strings, arrays and
objects are falsy. -/
def Json.truthy : Json → Bool
  | Json.null => false
  | Json.jbool b => b
  | Json.jnum n => n != 0
  | Json.jstr s => !s.isEmpty
  | Json.jarr es => !es.isEmpty
  | Json.jobj fs => !fs.isEmpty

/-- The warning at viewer.py line 169. -/
def metadataFilterWarning : String := "Invalid JSON format in metadata filter. Ignoring filter."

/-- The warning at viewer.py line 176. -/
def documentFilterWarning : String := "Invalid JSON format in document filter. Ignoring filter."

/-- The keyword arguments handed to the single `collection.query(**query_params)`
call of viewer.py lines 179-190. -/
structure QueryParams where
  query_texts : List String
  n_results : Nat
  whereParam : Option Json
  where_document : Option Json

/-- A planned query: the parameters of the one `collection.query` call plus
the warnings emitted while parsing the filters. -/
structure QuerySubmission where
  params : QueryParams
  warnings : List String

/-- One filter-parsing block of viewer.py lines 164-176: if the filter text
is non-empty, `json.loads` is attempted; on failure a warning is emitted and
the filter stays `None`. -/
def loadFilter (jsonLoads : String → Option Json) (filterText warning : String) :
    Option Json × List String :=
  if filterText = "" then (none, [])
  else
    match jsonLoads filterText with
    | some v => (some v, [])
    | none => (none, [warning])

/-- The attachment guard `if where_dict: query_params["where"] = where_dict`
of viewer.py lines 184-188: a parsed filter is attached only when truthy. -/
def attachIfTruthy : Option Json → Option Json
  | some v => if Json.truthy v then some v else none
  | none => none

/-- The query-construction block of viewer.py lines 160-190, for a non-empty
query text: parse the two filters, clamp `n_results` by
`min(n_results, max_length)` (line 181), and attach each truthy parsed filter
under its key. -/
def querySubmission (jsonLoads : String → Option Json) (query_text : String)
    (n_results max_length : Nat) (where_filter where_document_filter : String) :
    QuerySubmission :=
  let wf := loadFilter jsonLoads where_filter metadataFilterWarning
  let wdf := loadFilter jsonLoads where_document_filter documentFilterWarning
  { params :=
      { query_texts := [query_text]
        n_results := min n_results max_length
        whereParam := attachIfTruthy wf.1
        where_document := attachIfTruthy wdf.1 }
    warnings := wf.2 ++ wdf.2 }

/-- The guard `if query_text:` of viewer.py line 158: for an empty query text
no query is planned at all. -/
def planQuery (jsonLoads : String → Option Json) (query_text : String)
    (n_results max_length : Nat) (where_filter where_document_filter : String) :
    Option QuerySubmission :=
  if query_text = "" then none
  else some (querySubmission jsonLoads query_text n_results max_length
    where_filter where_document_filter)

/-- The store's response to `collection.query`: each field is batched per
input query text; `ids` is always a list, the other three may be `None`. -/
structure QueryResponse (μ : Type) where
  ids : List (List String)
  documents : Option (List (List String))
  metadatas : Option (List (List μ))
  distances : Option (List (List ℚ))

/-- One result-field selection of viewer.py lines 201-208:
`if query_results[f] and query_results[f][0]: result_data[f] = query_results[f][0]`.
The outer truthiness check guards the `[0]` access. -/
def batchField {α : Type} (o : Option (List (List α))) : Option (List α) :=
  if pyTruthy o then
    let first := (o.getD []).headD []
    if first.isEmpty then none else some first
  else none

/-- The first batch element of a batched response field, when the field is a
non-empty list. -/
def firstBatchOpt {α : Type} (o : Option (List (List α))) : Option (List α) :=
  match o with
  | some (x :: _) => some x
  | _ => none

/-- The `result_data` dictionary of viewer.py lines 196-208. -/
structure QueryTable (μ : Type) where
  ids : Option (List String)
  documents : Option (List String)
  metadatas : Option (List μ)
  distances : Option (List ℚ)

/-- Python `min(xs)` on a list of rationals (viewer.py line 216); the empty
case is never reached by the guarded call sites. -/
def pyListMin : List ℚ → ℚ
  | [] => 0
  | x :: xs => xs.foldl min x

/-- The `:.4f` rendering of a statistic (viewer.py lines 216-217), modelled
as the integer of ten-thousandths shown after rounding to four decimal
places. -/
def fmt4 (q : ℚ) : Int := round (q * 10000)

/-- The distance statistics block of viewer.py lines 215-217: best match
distance `min(ds)` and average distance `sum(ds)/len(ds)`, each rendered to
four decimal places. -/
structure DistanceStats where
  best : ℚ
  average : ℚ
  bestShown : Int
  averageShown : Int

/-- Outcome of the query-result display block, viewer.py lines 192-221. -/
inductive QueryOutcome (μ : Type) where
  | noResults
  | emptyDisplay
  | results (t : QueryTable μ) (stats : Option DistanceStats)

/-- The query-result display block of viewer.py lines 192-221: gate on
`query_results['ids'] and query_results['ids'][0]`, select each field's first
batch element when truthy, and when distances were requested and selected,
report min and mean distance. -/
def displayQueryResults {μ : Type} (include_distances : Bool) (res : QueryResponse μ) :
    QueryOutcome μ :=
  if !res.ids.isEmpty && !(res.ids.headD []).isEmpty then
    let ids0 := res.ids.headD []
    let tIds : Option (List String) := if !ids0.isEmpty then some ids0 else none
    let tDocs := batchField res.documents
    let tMetas := batchField res.metadatas
    let tDists := if include_distances then batchField res.distances else none
    if tIds.isSome || tDocs.isSome || tMetas.isSome || tDists.isSome then
      let stats : Option DistanceStats :=
        if include_distances && tDists.isSome then
          let ds := tDists.getD []
          some { best := pyListMin ds
                 average := ds.sum / (ds.length : ℚ)
                 bestShown := fmt4 (pyListMin ds)
                 averageShown := fmt4 (ds.sum / (ds.length : ℚ)) }
        else none
      QueryOutcome.results
        { ids := tIds, documents := tDocs, metadatas := tMetas, distances := tDists } stats
    else QueryOutcome.emptyDisplay
  else QueryOutcome.noResults

/-- The store's response to the paged fetch `collection.get(limit, offset)`
(viewer.py lines 132-135).  `ids` is always a list; the embeddings field is
carried to show the browse view never consults it. -/
structure Page (δ μ ε : Type) where
  ids : List String
  documents : Option (List δ)
  metadatas : Option (List μ)
  embeddings : Option (List (Option (List ε)))

/-- The `browse_data` dictionary of viewer.py lines 139-145: only ids,
documents and metadatas can appear, never embeddings. -/
structure BrowseTable (δ μ : Type) where
  ids : Option (List String)
  documents : Option (List δ)
  metadatas : Option (List μ)

/-- Outcome of the browse block, viewer.py lines 137-154: a shown table with
the reported range `items offset to offset + len(ids)`, the (unreachable)
`No data to display` branch, or the `No items found in the specified range`
message. -/
inductive BrowseOutcome (δ μ : Type) where
  | noItems
  | noData
  | shown (t : BrowseTable δ μ) (rangeStart rangeEnd : Nat)

/-- The browse-result rendering of viewer.py lines 137-154, given the page
returned by the store. -/
def renderBrowse {δ μ ε : Type} (browse_offset : Nat) (page : Page δ μ ε) :
    BrowseOutcome δ μ :=
  if !page.ids.isEmpty then
    let bIds : Option (List String) := if !page.ids.isEmpty then some page.ids else none
    let bDocs := if pyTruthy page.documents then page.documents else none
    let bMetas := if pyTruthy page.metadatas then page.metadatas else none
    if bIds.isSome || bDocs.isSome || bMetas.isSome then
      BrowseOutcome.shown { ids := bIds, documents := bDocs, metadatas := bMetas }
        browse_offset (browse_offset + page.ids.length)
    else BrowseOutcome.noData
  else BrowseOutcome.noItems

/-- The whole browse interaction of viewer.py lines 130-154: call the store's
paged fetch with exactly the user's limit and offset, then render. -/
def browse {δ μ ε : Type} (fetch : Nat → Nat → Page δ μ ε)
    (browse_limit browse_offset : Nat) : BrowseOutcome δ μ :=
  renderBrowse browse_offset (fetch browse_limit browse_offset)

/-- A concrete stand-in for `json.loads` agreeing with it on the input "0":
`json.loads("0")` succeeds and yields the number `0`. -/
def jsonLoadsStub : String → Option Json :=
  fun s => if s = "0" then some (Json.jnum 0) else none

/-! ### Helper lemmas about the Reconciler -/

theorem lenOrZero_eq_length {α : Type} (o : Option (List α)) :
    lenOrZero o = (o.getD []).length := by
  cases o with
  | none => rfl
  | some xs => cases xs <;> simp [lenOrZero, pyTruthy]

theorem exists_cons_of_lenOrZero_pos {α : Type} (o : Option (List α))
    (h : 0 < lenOrZero o) : ∃ x xs, o = some (x :: xs) := by
  cases o with
  | none => simp [lenOrZero, pyTruthy] at h
  | some xs =>
    cases xs with
    | nil => simp [lenOrZero, pyTruthy] at h
    | cons x xs => exact ⟨x, xs, rfl⟩

theorem survives_iff_lenOrZero {α : Type} (o : Option (List α)) (n : Nat) (hn : 0 < n) :
    (pyTruthy o = true ∧ (o.getD []).length = n) ↔ lenOrZero o = n := by
  constructor
  · rintro ⟨h1, h2⟩
    rw [lenOrZero_eq_length]
    exact h2
  · intro h
    obtain ⟨x, xs, rfl⟩ := exists_cons_of_lenOrZero_pos o (h ▸ hn)
    exact ⟨rfl, by rw [← lenOrZero_eq_length]; exact h⟩

theorem dfCol_eq {α : Type} (o : Option (List α)) (n : Nat) (hn : 0 < n) :
    dfCol o n = if lenOrZero o = n then o else none := by
  unfold dfCol
  by_cases h : lenOrZero o = n
  · rw [if_pos ((survives_iff_lenOrZero o n hn).mpr h), if_pos h]
  · rw [if_neg (fun hs => h ((survives_iff_lenOrZero o n hn).mp hs)), if_neg h]

theorem dfEmbCol_eq {ε : Type} (e : Option (List (Option (List ε)))) (n : Nat) (hn : 0 < n) :
    dfEmbCol e n = if lenOrZero e = n then some ((e.getD []).map embCount) else none := by
  unfold dfEmbCol
  by_cases h : lenOrZero e = n
  · rw [if_pos ((survives_iff_lenOrZero e n hn).mpr h), if_pos h]
  · rw [if_neg (fun hs => h ((survives_iff_lenOrZero e n hn).mp hs)), if_neg h]

theorem maxLenOf_choice {ι δ μ ε : Type} (ids : Option (List ι)) (documents : Option (List δ))
    (metadatas : Option (List μ)) (embeddings : Option (List (Option (List ε)))) :
    maxLenOf ids documents metadatas embeddings = lenOrZero ids ∨
    maxLenOf ids documents metadatas embeddings = lenOrZero embeddings ∨
    maxLenOf ids documents metadatas embeddings = lenOrZero metadatas ∨
    maxLenOf ids documents metadatas embeddings = lenOrZero documents := by
  unfold maxLenOf
  rcases max_choice (max (lenOrZero ids) (lenOrZero embeddings))
      (max (lenOrZero metadatas) (lenOrZero documents)) with h | h <;> rw [h]
  · rcases max_choice (lenOrZero ids) (lenOrZero embeddings) with h2 | h2 <;> rw [h2]
    · exact Or.inl rfl
    · exact Or.inr (Or.inl rfl)
  · rcases max_choice (lenOrZero metadatas) (lenOrZero documents) with h2 | h2 <;> rw [h2]
    · exact Or.inr (Or.inr (Or.inl rfl))
    · exact Or.inr (Or.inr (Or.inr rfl))

theorem dfCol_isSome_of_eq {α : Type} (o : Option (List α)) (n : Nat) (hn : 0 < n)
    (h : lenOrZero o = n) : (dfCol o n).isSome = true := by
  rw [dfCol_eq o n hn, if_pos h]
  obtain ⟨x, xs, rfl⟩ := exists_cons_of_lenOrZero_pos o (h ▸ hn)
  rfl

theorem dfEmbCol_isSome_of_eq {ε : Type} (e : Option (List (Option (List ε)))) (n : Nat)
    (hn : 0 < n) (h : lenOrZero e = n) : (dfEmbCol e n).isSome = true := by
  rw [dfEmbCol_eq e n hn, if_pos h]
  rfl

theorem reconcile_eq_empty {ι δ μ ε : Type} (ids : Option (List ι))
    (documents : Option (List δ)) (metadatas : Option (List μ))
    (embeddings : Option (List (Option (List ε))))
    (h : maxLenOf ids documents metadatas embeddings = 0) :
    reconcile ids documents metadatas embeddings = ReconcileResult.emptyCollection := by
  unfold reconcile
  rw [if_pos h]

theorem reconcile_eq_table {ι δ μ ε : Type} (ids : Option (List ι))
    (documents : Option (List δ)) (metadatas : Option (List μ))
    (embeddings : Option (List (Option (List ε))))
    (h : 0 < maxLenOf ids documents metadatas embeddings) :
    reconcile ids documents metadatas embeddings = ReconcileResult.table
      { ids := if lenOrZero ids = maxLenOf ids documents metadatas embeddings then ids else none
        documents :=
          if lenOrZero documents = maxLenOf ids documents metadatas embeddings then
            documents else none
        metadatas :=
          if lenOrZero metadatas = maxLenOf ids documents metadatas embeddings then
            metadatas else none
        embeddings_count :=
          if lenOrZero embeddings = maxLenOf ids documents metadatas embeddings then
            some ((embeddings.getD []).map embCount) else none } := by
  have hne : ¬ maxLenOf ids documents metadatas embeddings = 0 := by omega
  have hsurv : (dfCol ids (maxLenOf ids documents metadatas embeddings)).isSome = true ∨
      (dfCol documents (maxLenOf ids documents metadatas embeddings)).isSome = true ∨
      (dfCol metadatas (maxLenOf ids documents metadatas embeddings)).isSome = true ∨
      (dfEmbCol embeddings (maxLenOf ids documents metadatas embeddings)).isSome = true := by
    rcases maxLenOf_choice ids documents metadatas embeddings with hc | hc | hc | hc
    · exact Or.inl (dfCol_isSome_of_eq _ _ h hc.symm)
    · exact Or.inr (Or.inr (Or.inr (dfEmbCol_isSome_of_eq _ _ h hc.symm)))
    · exact Or.inr (Or.inr (Or.inl (dfCol_isSome_of_eq _ _ h hc.symm)))
    · exact Or.inr (Or.inl (dfCol_isSome_of_eq _ _ h hc.symm))
  unfold reconcile
  rw [if_neg hne, if_pos hsurv, dfCol_eq _ _ h, dfCol_eq _ _ h, dfCol_eq _ _ h,
    dfEmbCol_eq _ _ h]

theorem survives_pos {α : Type} (o : Option (List α)) (n : Nat) (h : survives o n) :
    0 < n := by
  obtain ⟨ht, hlen⟩ := h
  cases o with
  | none => simp [pyTruthy] at ht
  | some xs =>
    cases xs with
    | nil => simp [pyTruthy] at ht
    | cons x t => simp at hlen; omega

theorem embCount_eq {ε : Type} (emb : Option (List ε)) :
    embCount emb = match emb with | none => 0 | some v => v.length := by
  cases emb with
  | none => rfl
  | some v => cases v <;> simp [embCount, pyTruthy]

/-! ### The claims -/

/-- C1 (amended): for every fetched collection in which `ids` is present (a
possibly empty sequence) and `documents`, `metadatas`, `embeddings` are each
absent or sequences of arbitrary, possibly unequal, possibly zero length, the
per-collection display never raises: it either produces a table containing
exactly the fields whose length equals the computed maximum, or reaches one
of the two defined stop states.  (Over an absent `ids` the claim as stated
fails, because the count banner evaluates `len(ids)`: see the
counterexample.) -/
theorem c1_reconciler_never_raises {ι δ μ ε : Type} (xs : List ι)
    (documents : Option (List δ)) (metadatas : Option (List μ))
    (embeddings : Option (List (Option (List ε)))) :
    displayCollection (some xs) documents metadatas embeddings =
      Except.ok (reconcile (some xs) documents metadatas embeddings) ∧
    (reconcile (some xs) documents metadatas embeddings =
        ReconcileResult.emptyCollection ∨
      reconcile (some xs) documents metadatas embeddings =
        ReconcileResult.inconsistentLengths ∨
      reconcile (some xs) documents metadatas embeddings = ReconcileResult.table
        { ids :=
            if lenOrZero (some xs) = maxLenOf (some xs) documents metadatas embeddings
            then some xs else none
          documents :=
            if lenOrZero documents = maxLenOf (some xs) documents metadatas embeddings
            then documents else none
          metadatas :=
            if lenOrZero metadatas = maxLenOf (some xs) documents metadatas embeddings
            then metadatas else none
          embeddings_count :=
            if lenOrZero embeddings = maxLenOf (some xs) documents metadatas embeddings
            then some ((embeddings.getD []).map embCount) else none }) := by
  refine ⟨rfl, ?_⟩
  by_cases h : maxLenOf (some xs) documents metadatas embeddings = 0
  · exact Or.inl (reconcile_eq_empty _ _ _ _ h)
  · exact Or.inr (Or.inr (reconcile_eq_table _ _ _ _ (Nat.pos_of_ne_zero h)))

/-- C1 counterexample: with `ids` absent (and, here, every other field absent
too) the count banner `len(ids)` raises a `TypeError`, so the display neither
builds a table nor reaches a stop state. -/
theorem c1_counterexample :
    displayCollection (none : Option (List Nat)) (none : Option (List Nat))
      (none : Option (List Nat)) (none : Option (List (Option (List Nat)))) =
      Except.error PyError.typeError := rfl

/-- C2: when the computed maximum of the four lengths is positive, a field is
included in the output table iff its length equals that maximum, and an
included column is the untouched input sequence (never padded or truncated);
a differing field is dropped whole.  In particular, ids of length 3,
documents of length 3, metadatas of length 2 and embeddings absent give a
table of exactly ids and documents, whose columns have 3 rows. -/
theorem c2_exact_length_filter {ι δ μ ε : Type} (ids : Option (List ι))
    (documents : Option (List δ)) (metadatas : Option (List μ))
    (embeddings : Option (List (Option (List ε))))
    (h : 0 < maxLenOf ids documents metadatas embeddings) :
    reconcile ids documents metadatas embeddings = ReconcileResult.table
      { ids :=
          if lenOrZero ids = maxLenOf ids documents metadatas embeddings
          then ids else none
        documents :=
          if lenOrZero documents = maxLenOf ids documents metadatas embeddings
          then documents else none
        metadatas :=
          if lenOrZero metadatas = maxLenOf ids documents metadatas embeddings
          then metadatas else none
        embeddings_count :=
          if lenOrZero embeddings = maxLenOf ids documents metadatas embeddings
          then some ((embeddings.getD []).map embCount) else none } ∧
    reconcile (some [0, 1, 2]) (some [5, 6, 7]) (some [8, 9])
        (none : Option (List (Option (List Nat)))) =
      ReconcileResult.table
        { ids := some [0, 1, 2], documents := some [5, 6, 7],
          metadatas := none, embeddings_count := none } ∧
    ([0, 1, 2] : List Nat).length = 3 := by
  exact ⟨reconcile_eq_table _ _ _ _ h, rfl, rfl⟩

/-- Witness for C2 at a concrete input. -/
theorem c2_witness :
    0 < maxLenOf (some ["a"]) (none : Option (List Nat)) (none : Option (List Nat))
        (none : Option (List (Option (List Nat)))) ∧
    reconcile (some ["a"]) (none : Option (List Nat)) (none : Option (List Nat))
        (none : Option (List (Option (List Nat)))) = ReconcileResult.table
      { ids :=
          if lenOrZero (some ["a"]) = maxLenOf (some ["a"]) (none : Option (List Nat))
            (none : Option (List Nat)) (none : Option (List (Option (List Nat))))
          then some ["a"] else none
        documents :=
          if lenOrZero (none : Option (List Nat)) = maxLenOf (some ["a"])
            (none : Option (List Nat)) (none : Option (List Nat))
            (none : Option (List (Option (List Nat))))
          then (none : Option (List Nat)) else none
        metadatas :=
          if lenOrZero (none : Option (List Nat)) = maxLenOf (some ["a"])
            (none : Option (List Nat)) (none : Option (List Nat))
            (none : Option (List (Option (List Nat))))
          then (none : Option (List Nat)) else none
        embeddings_count :=
          if lenOrZero (none : Option (List (Option (List Nat)))) = maxLenOf (some ["a"])
            (none : Option (List Nat)) (none : Option (List Nat))
            (none : Option (List (Option (List Nat))))
          then some (((none : Option (List (Option (List Nat)))).getD []).map embCount)
          else none } := by
  exact ⟨by decide, (c2_exact_length_filter _ _ _ _ (by decide)).1⟩

/-- C3: if all four arrays are present with the same positive length N, the
output table contains all four fields, the embeddings column holding the
per-item component counts rather than the raw vectors, and every column has
exactly N rows. -/
theorem c3_equal_lengths {ι δ μ ε : Type} (N : Nat) (il : List ι) (dl : List δ)
    (ml : List μ) (el : List (Option (List ε))) (hN : 0 < N) (hi : il.length = N)
    (hd : dl.length = N) (hm : ml.length = N) (he : el.length = N) :
    reconcile (some il) (some dl) (some ml) (some el) = ReconcileResult.table
      { ids := some il, documents := some dl, metadatas := some ml,
        embeddings_count := some (el.map embCount) } ∧
    (el.map embCount).length = N := by
  have hmax : maxLenOf (some il) (some dl) (some ml) (some el) = N := by
    unfold maxLenOf
    rw [lenOrZero_eq_length, lenOrZero_eq_length, lenOrZero_eq_length, lenOrZero_eq_length]
    simp [hi, hd, hm, he]
  have hpos : 0 < maxLenOf (some il) (some dl) (some ml) (some el) := by
    rw [hmax]; exact hN
  refine ⟨?_, by simp [he]⟩
  rw [reconcile_eq_table _ _ _ _ hpos]
  simp [hmax, lenOrZero_eq_length, hi, hd, hm, he]

/-- Witness for C3 at N = 2. -/
theorem c3_witness :
    0 < 2 ∧
    reconcile (some [1, 2]) (some [3, 4]) (some [5, 6])
        (some [some [7], none] : Option (List (Option (List Nat)))) =
      ReconcileResult.table
        { ids := some [1, 2], documents := some [3, 4], metadatas := some [5, 6],
          embeddings_count := some (([some [7], none] : List (Option (List Nat))).map embCount) } ∧
    (([some [7], none] : List (Option (List Nat))).map embCount).length = 2 := by
  have h := c3_equal_lengths 2 ([1, 2] : List Nat) ([3, 4] : List Nat) ([5, 6] : List Nat)
    ([some [7], none] : List (Option (List Nat))) (by decide) rfl rfl rfl rfl
  exact ⟨by decide, h.1, h.2⟩

/-- C4: the two stop states are distinct values, and they are selected as the
claim says: a zero maximum yields the empty-collection state; a positive
maximum with no surviving field would yield the inconsistent-lengths state;
the inconsistent state never occurs when the maximum is zero; and neither
stop state occurs when at least one field survives the length filter. -/
theorem c4_stop_states {ι δ μ ε : Type} (ids : Option (List ι))
    (documents : Option (List δ)) (metadatas : Option (List μ))
    (embeddings : Option (List (Option (List ε)))) :
    ((ReconcileResult.emptyCollection : ReconcileResult ι δ μ) ≠
      ReconcileResult.inconsistentLengths) ∧
    (maxLenOf ids documents metadatas embeddings = 0 →
      reconcile ids documents metadatas embeddings = ReconcileResult.emptyCollection) ∧
    (0 < maxLenOf ids documents metadatas embeddings →
      ¬ survives ids (maxLenOf ids documents metadatas embeddings) →
      ¬ survives documents (maxLenOf ids documents metadatas embeddings) →
      ¬ survives metadatas (maxLenOf ids documents metadatas embeddings) →
      ¬ survives embeddings (maxLenOf ids documents metadatas embeddings) →
      reconcile ids documents metadatas embeddings = ReconcileResult.inconsistentLengths) ∧
    (maxLenOf ids documents metadatas embeddings = 0 →
      reconcile ids documents metadatas embeddings ≠ ReconcileResult.inconsistentLengths) ∧
    ((survives ids (maxLenOf ids documents metadatas embeddings) ∨
        survives documents (maxLenOf ids documents metadatas embeddings) ∨
        survives metadatas (maxLenOf ids documents metadatas embeddings) ∨
        survives embeddings (maxLenOf ids documents metadatas embeddings)) →
      reconcile ids documents metadatas embeddings ≠ ReconcileResult.emptyCollection ∧
      reconcile ids documents metadatas embeddings ≠ ReconcileResult.inconsistentLengths) := by
  refine ⟨fun h => ReconcileResult.noConfusion h, reconcile_eq_empty _ _ _ _, ?_, ?_, ?_⟩
  · intro hpos hni hnd hnm hne
    exfalso
    rcases maxLenOf_choice ids documents metadatas embeddings with hc | hc | hc | hc
    · exact hni ((survives_iff_lenOrZero _ _ hpos).mpr hc.symm)
    · exact hne ((survives_iff_lenOrZero _ _ hpos).mpr hc.symm)
    · exact hnm ((survives_iff_lenOrZero _ _ hpos).mpr hc.symm)
    · exact hnd ((survives_iff_lenOrZero _ _ hpos).mpr hc.symm)
  · intro h0
    rw [reconcile_eq_empty _ _ _ _ h0]
    exact fun h => ReconcileResult.noConfusion h
  · intro hs
    have hpos : 0 < maxLenOf ids documents metadatas embeddings := by
      rcases hs with h | h | h | h
      · exact survives_pos _ _ h
      · exact survives_pos _ _ h
      · exact survives_pos _ _ h
      · exact survives_pos _ _ h
    rw [reconcile_eq_table _ _ _ _ hpos]
    exact ⟨fun h => ReconcileResult.noConfusion h, fun h => ReconcileResult.noConfusion h⟩

/-- Witness for C4: with a surviving `ids` field neither stop state occurs. -/
theorem c4_witness :
    reconcile (some [1]) (none : Option (List Nat)) (none : Option (List Nat))
        (none : Option (List (Option (List Nat)))) ≠ ReconcileResult.emptyCollection ∧
    reconcile (some [1]) (none : Option (List Nat)) (none : Option (List Nat))
        (none : Option (List (Option (List Nat)))) ≠ ReconcileResult.inconsistentLengths := by
  exact (c4_stop_states (some [1]) none none none).2.2.2.2 (Or.inl ⟨rfl, rfl⟩)

/-- C10: whenever the embeddings column is included in the Reconciler's
table, its entries are exactly the per-item embedding lengths, an absent
(`None`) or empty embedding being reported as 0; every entry is a natural
number by construction. -/
theorem c10_embedding_counts {ι δ μ ε : Type} (ids : Option (List ι))
    (documents : Option (List δ)) (metadatas : Option (List μ))
    (embeddings : Option (List (Option (List ε)))) (t : ChromaTable ι δ μ)
    (cs : List Nat)
    (ht : reconcile ids documents metadatas embeddings = ReconcileResult.table t)
    (hc : t.embeddings_count = some cs) :
    cs = (embeddings.getD []).map
      (fun emb => match emb with | none => 0 | some v => v.length) := by
  by_cases h : maxLenOf ids documents metadatas embeddings = 0
  · rw [reconcile_eq_empty _ _ _ _ h] at ht
    exact absurd ht (fun h => ReconcileResult.noConfusion h)
  · have hpos := Nat.pos_of_ne_zero h
    rw [reconcile_eq_table _ _ _ _ hpos] at ht
    cases t with
    | mk ti td tm te =>
      simp only [ReconcileResult.table.injEq, ChromaTable.mk.injEq] at ht
      obtain ⟨h1, h2, h3, h4⟩ := ht
      rw [← h4] at hc
      by_cases hcond :
          lenOrZero embeddings = maxLenOf ids documents metadatas embeddings
      · rw [if_pos hcond] at hc
        have hfun : (embCount : Option (List ε) → Nat) =
            fun emb => match emb with | none => 0 | some v => v.length :=
          funext (fun emb => embCount_eq emb)
        injection hc with hc
        rw [← hc, hfun]
      · rw [if_neg hcond] at hc
        exact absurd hc (by simp)

/-- Witness for C10 at a concrete input with one real and one absent
embedding. -/
theorem c10_witness :
    reconcile (some [1, 2]) (none : Option (List Nat)) (none : Option (List Nat))
        (some [some [5, 6], none]) = ReconcileResult.table
      { ids := some [1, 2], documents := none, metadatas := none,
        embeddings_count := some [2, 0] } ∧
    ({ ids := some [1, 2], documents := none, metadatas := none,
       embeddings_count := some [2, 0] } : ChromaTable Nat Nat Nat).embeddings_count =
      some [2, 0] ∧
    [2, 0] = (([some [5, 6], none] : List (Option (List Nat))).map
      (fun emb => match emb with | none => 0 | some v => v.length)) := by
  exact ⟨rfl, rfl, by
    have h := c10_embedding_counts (some [1, 2]) (none : Option (List Nat))
      (none : Option (List Nat)) (some [some [5, 6], none])
      { ids := some [1, 2], documents := none, metadatas := none,
        embeddings_count := some [2, 0] } [2, 0] rfl rfl
    exact h⟩

theorem batchField_eq_firstBatchOpt {α : Type} (o : Option (List (List α))) :
    batchField o = match firstBatchOpt o with
      | some x => if x.isEmpty then none else some x
      | none => none := by
  match o with
  | none => rfl
  | some [] => rfl
  | some (x :: xs) => rfl

theorem displayQueryResults_congr {μ : Type} (inc : Bool) (res res' : QueryResponse μ)
    (hids : res.ids.head? = res'.ids.head?)
    (hdocs : firstBatchOpt res.documents = firstBatchOpt res'.documents)
    (hmetas : firstBatchOpt res.metadatas = firstBatchOpt res'.metadatas)
    (hdists : firstBatchOpt res.distances = firstBatchOpt res'.distances) :
    displayQueryResults inc res = displayQueryResults inc res' := by
  have hE : res.ids.isEmpty = res'.ids.isEmpty := by
    cases hl : res.ids <;> cases hl' : res'.ids <;> simp_all
  have hH : res.ids.headD [] = res'.ids.headD [] := by
    cases hl : res.ids <;> cases hl' : res'.ids <;> simp_all
  unfold displayQueryResults
  rw [batchField_eq_firstBatchOpt res.documents, batchField_eq_firstBatchOpt res'.documents,
    batchField_eq_firstBatchOpt res.metadatas, batchField_eq_firstBatchOpt res'.metadatas,
    batchField_eq_firstBatchOpt res.distances, batchField_eq_firstBatchOpt res'.distances,
    hE, hH, hdocs, hmetas, hdists]

theorem renderBrowse_shown {δ μ ε : Type} (o : Nat) (page : Page δ μ ε)
    (h : page.ids ≠ []) :
    renderBrowse o page = BrowseOutcome.shown
      { ids := some page.ids
        documents := if pyTruthy page.documents then page.documents else none
        metadatas := if pyTruthy page.metadatas then page.metadatas else none }
      o (o + page.ids.length) := by
  have hE : page.ids.isEmpty = false := by
    cases hh : page.ids with
    | nil => exact absurd hh h
    | cons a l => rfl
  simp [renderBrowse, hE]

/-- C5 (amended): for every query actually issued, the result count submitted
to the store's query call equals `min(nResults, maxLength)`, where
`maxLength` is the Reconciler's maximum of the four fetched field lengths;
this coincides with the collection's item count whenever the four arrays are
consistent, and in particular nResults = 5 against a 3-item collection
submits exactly 3.  (Against an inconsistent collection the clamp can exceed
the item count `len(ids)`: see the counterexample.) -/
theorem c5_clamp_to_max_length {ι δ μ ε : Type} (jsonLoads : String → Option Json)
    (query_text : String) (n_results : Nat) (ids : Option (List ι))
    (documents : Option (List δ)) (metadatas : Option (List μ))
    (embeddings : Option (List (Option (List ε))))
    (where_filter where_document_filter : String) (hq : query_text ≠ "") :
    planQuery jsonLoads query_text n_results
        (maxLenOf ids documents metadatas embeddings) where_filter
        where_document_filter =
      some (querySubmission jsonLoads query_text n_results
        (maxLenOf ids documents metadatas embeddings) where_filter
        where_document_filter) ∧
    (querySubmission jsonLoads query_text n_results
        (maxLenOf ids documents metadatas embeddings) where_filter
        where_document_filter).params.n_results =
      min n_results (maxLenOf ids documents metadatas embeddings) ∧
    (querySubmission (fun _ => none) "q" 5
        (maxLenOf (some [0, 1, 2]) (some [3, 4, 5]) (some [6, 7, 8])
          (some [some [9], some [9], some [9]] : Option (List (Option (List Nat)))))
        "" "").params.n_results = 3 := by
  refine ⟨?_, rfl, rfl⟩
  unfold planQuery
  rw [if_neg hq]

/-- Witness for C5 at a concrete consistent input. -/
theorem c5_witness :
    ("q" : String) ≠ "" ∧
    planQuery (fun _ => none) "q" 5
        (maxLenOf (some [0]) (none : Option (List Nat)) (none : Option (List Nat))
          (none : Option (List (Option (List Nat))))) "" "" =
      some (querySubmission (fun _ => none) "q" 5
        (maxLenOf (some [0]) (none : Option (List Nat)) (none : Option (List Nat))
          (none : Option (List (Option (List Nat))))) "" "") ∧
    (querySubmission (fun _ => none) "q" 5
        (maxLenOf (some [0]) (none : Option (List Nat)) (none : Option (List Nat))
          (none : Option (List (Option (List Nat))))) "" "").params.n_results =
      min 5 (maxLenOf (some [0]) (none : Option (List Nat)) (none : Option (List Nat))
        (none : Option (List (Option (List Nat))))) := by
  have h := c5_clamp_to_max_length (fun _ => none) "q" 5 (some [0])
    (none : Option (List Nat)) (none : Option (List Nat))
    (none : Option (List (Option (List Nat)))) "" "" (by decide)
  exact ⟨by decide, h.1, h.2.1⟩

/-- C5 counterexample: with ids of length 1 (so an item count of 1) but
metadatas of length 2, the count submitted for nResults = 5 is
min(5, maxLength) = 2, not min(5, itemCount) = 1 as the claim states. -/
theorem c5_counterexample :
    (planQuery (fun _ => none) "q" 5
        (maxLenOf (some [0]) (none : Option (List Nat)) (some [0, 0])
          (none : Option (List (Option (List Nat))))) "" "").map
      (fun sub => sub.params.n_results) = some 2 ∧
    ((some [0] : Option (List Nat)).getD []).length = 1 ∧
    (2 : Nat) ≠ min 5 1 := by
  exact ⟨rfl, rfl, by decide⟩

/-- C6: for every non-empty filter string (metadata or document) that fails
to parse as JSON, the executor emits the corresponding user-visible warning
and still issues the query with that filter omitted; a single unparsable
filter never aborts the query (the plan is still produced) and the planner is
a total function, so nothing is raised. -/
theorem c6_bad_filter_warns_and_proceeds (jsonLoads : String → Option Json)
    (query_text : String) (n_results max_length : Nat)
    (where_filter where_document_filter : String) (hq : query_text ≠ "") :
    planQuery jsonLoads query_text n_results max_length where_filter
        where_document_filter =
      some (querySubmission jsonLoads query_text n_results max_length where_filter
        where_document_filter) ∧
    (where_filter ≠ "" → jsonLoads where_filter = none →
      metadataFilterWarning ∈ (querySubmission jsonLoads query_text n_results
        max_length where_filter where_document_filter).warnings ∧
      (querySubmission jsonLoads query_text n_results max_length where_filter
        where_document_filter).params.whereParam = none) ∧
    (where_document_filter ≠ "" → jsonLoads where_document_filter = none →
      documentFilterWarning ∈ (querySubmission jsonLoads query_text n_results
        max_length where_filter where_document_filter).warnings ∧
      (querySubmission jsonLoads query_text n_results max_length where_filter
        where_document_filter).params.where_document = none) := by
  refine ⟨by unfold planQuery; rw [if_neg hq], ?_, ?_⟩
  · intro hw hl
    simp only [querySubmission, loadFilter, if_neg hw, hl]
    exact ⟨by simp, rfl⟩
  · intro hw hl
    simp only [querySubmission, loadFilter, if_neg hw, hl]
    exact ⟨by simp, rfl⟩

/-- Witness for C6 with two unparsable filters. -/
theorem c6_witness :
    ("q" : String) ≠ "" ∧ ("oops" : String) ≠ "" ∧
    (fun _ : String => (none : Option Json)) "oops" = none ∧
    planQuery (fun _ => none) "q" 5 3 "oops" "also bad" =
      some (querySubmission (fun _ => none) "q" 5 3 "oops" "also bad") ∧
    metadataFilterWarning ∈
      (querySubmission (fun _ => none) "q" 5 3 "oops" "also bad").warnings ∧
    (querySubmission (fun _ => none) "q" 5 3 "oops" "also bad").params.whereParam =
      none := by
  have h := c6_bad_filter_warns_and_proceeds (fun _ => none) "q" 5 3 "oops" "also bad"
    (by decide)
  have h2 := h.2.1 (by decide) rfl
  exact ⟨by decide, by decide, rfl, h.1, h2.1, h2.2⟩

/-- C7 (amended): for every non-empty query text exactly one query call is
planned, carrying the search text as a one-element batch and the clamped
result count; a successfully parsed filter is attached under its key exactly
when its parsed value is truthy (a filter parsing to a falsy value, such as
the empty object, 0, false, null or an empty string or array, is omitted
despite parsing); and the result-table builder depends only on the first
batch element of every response field.  (The unconditional attachment the
claim states fails on a parsed-but-falsy filter: see the counterexample.) -/
theorem c7_single_query_call (jsonLoads : String → Option Json) (query_text : String)
    (n_results max_length : Nat) (where_filter where_document_filter : String)
    (hq : query_text ≠ "") :
    planQuery jsonLoads query_text n_results max_length where_filter
        where_document_filter =
      some (querySubmission jsonLoads query_text n_results max_length where_filter
        where_document_filter) ∧
    (querySubmission jsonLoads query_text n_results max_length where_filter
        where_document_filter).params.query_texts = [query_text] ∧
    (querySubmission jsonLoads query_text n_results max_length where_filter
        where_document_filter).params.n_results = min n_results max_length ∧
    (∀ v, where_filter ≠ "" → jsonLoads where_filter = some v → Json.truthy v = true →
      (querySubmission jsonLoads query_text n_results max_length where_filter
        where_document_filter).params.whereParam = some v) ∧
    (∀ v, where_filter ≠ "" → jsonLoads where_filter = some v → Json.truthy v = false →
      (querySubmission jsonLoads query_text n_results max_length where_filter
        where_document_filter).params.whereParam = none) ∧
    (∀ v, where_document_filter ≠ "" → jsonLoads where_document_filter = some v →
      Json.truthy v = true →
      (querySubmission jsonLoads query_text n_results max_length where_filter
        where_document_filter).params.where_document = some v) ∧
    (∀ v, where_document_filter ≠ "" → jsonLoads where_document_filter = some v →
      Json.truthy v = false →
      (querySubmission jsonLoads query_text n_results max_length where_filter
        where_document_filter).params.where_document = none) ∧
    (∀ (μ : Type) (inc : Bool) (res res' : QueryResponse μ),
      res.ids.head? = res'.ids.head? →
      firstBatchOpt res.documents = firstBatchOpt res'.documents →
      firstBatchOpt res.metadatas = firstBatchOpt res'.metadatas →
      firstBatchOpt res.distances = firstBatchOpt res'.distances →
      displayQueryResults inc res = displayQueryResults inc res') := by
  refine ⟨by unfold planQuery; rw [if_neg hq], rfl, rfl, ?_, ?_, ?_, ?_,
    fun μ inc res res' h1 h2 h3 h4 => displayQueryResults_congr inc res res' h1 h2 h3 h4⟩
  · intro v hw hl htr
    simp only [querySubmission, loadFilter, attachIfTruthy, if_neg hw, hl, htr, if_pos]
  · intro v hw hl htr
    simp only [querySubmission, loadFilter, attachIfTruthy, if_neg hw, hl, htr]
    simp
  · intro v hw hl htr
    simp only [querySubmission, loadFilter, attachIfTruthy, if_neg hw, hl, htr, if_pos]
  · intro v hw hl htr
    simp only [querySubmission, loadFilter, attachIfTruthy, if_neg hw, hl, htr]
    simp

/-- Witness for C7: a non-empty query with a parsed-but-falsy metadata
filter. -/
theorem c7_witness :
    ("q" : String) ≠ "" ∧ ("0" : String) ≠ "" ∧
    jsonLoadsStub "0" = some (Json.jnum 0) ∧ Json.truthy (Json.jnum 0) = false ∧
    planQuery jsonLoadsStub "q" 5 3 "0" "" =
      some (querySubmission jsonLoadsStub "q" 5 3 "0" "") ∧
    (querySubmission jsonLoadsStub "q" 5 3 "0" "").params.query_texts = ["q"] ∧
    (querySubmission jsonLoadsStub "q" 5 3 "0" "").params.n_results = min 5 3 ∧
    (querySubmission jsonLoadsStub "q" 5 3 "0" "").params.whereParam = none := by
  have h := c7_single_query_call jsonLoadsStub "q" 5 3 "0" "" (by decide)
  exact ⟨by decide, by decide, rfl, rfl, h.1, h.2.1, h.2.2.1,
    h.2.2.2.2.1 (Json.jnum 0) (by decide) rfl rfl⟩

/-- C7 counterexample: the filter string "0" parses successfully
(`json.loads("0")` yields the number 0) but, being falsy, is not attached
under the where key, contradicting the claim that every successfully parsed
filter is attached. -/
theorem c7_counterexample :
    jsonLoadsStub "0" = some (Json.jnum 0) ∧ ("0" : String) ≠ "" ∧
    (planQuery jsonLoadsStub "q" 5 3 "0" "").map (fun sub => sub.params.whereParam) =
      some none := by
  exact ⟨rfl, by decide, rfl⟩

/-- C8: for a query executed with distances included whose first batch
element has results and a non-empty distances list, the executor reports the
distance statistics: best match = the minimum distance, average = the sum of
the distances divided by their count, each rendered to four decimal places
(modelled by `fmt4`). -/
theorem c8_distance_stats {μ : Type} (res : QueryResponse μ) (ds : List ℚ)
    (rest : List (List ℚ)) (hids : res.ids.headD [] ≠ [])
    (hd : res.distances = some (ds :: rest)) (hds : ds ≠ []) :
    displayQueryResults true res = QueryOutcome.results
      { ids := some (res.ids.headD []), documents := batchField res.documents,
        metadatas := batchField res.metadatas, distances := some ds }
      (some { best := pyListMin ds, average := ds.sum / (ds.length : ℚ),
              bestShown := fmt4 (pyListMin ds),
              averageShown := fmt4 (ds.sum / (ds.length : ℚ)) }) := by
  have h1 : res.ids.isEmpty = false := by
    cases hl : res.ids with
    | nil => rw [hl] at hids; exact absurd rfl hids
    | cons a l => rfl
  have h2 : (res.ids.headD []).isEmpty = false := by
    cases hh : res.ids.headD [] with
    | nil => exact absurd hh hids
    | cons a l => rfl
  have h3 : ds.isEmpty = false := by
    cases hh : ds with
    | nil => exact absurd hh hds
    | cons a l => rfl
  have hbd : batchField res.distances = some ds := by
    rw [hd]
    simp [batchField, pyTruthy, h3]
  simp only [displayQueryResults, h1, h2, hbd, Bool.not_false, Bool.and_self, if_true,
    Option.isSome_some, Bool.true_or, Bool.or_true, Option.getD_some, if_pos]

/-- Witness for C8 at a concrete response with two distances. -/
theorem c8_witness :
    (([["a", "b"]] : List (List String)).headD [] ≠ []) ∧
    ([(1 : ℚ)/2, (3 : ℚ)/2] ≠ []) ∧
    displayQueryResults true
      ({ ids := [["a", "b"]], documents := some [["d1", "d2"]], metadatas := none,
         distances := some [[(1 : ℚ)/2, (3 : ℚ)/2]] } : QueryResponse Nat) =
      QueryOutcome.results
        { ids := some (([["a", "b"]] : List (List String)).headD []),
          documents := batchField (some [["d1", "d2"]]),
          metadatas := batchField (none : Option (List (List Nat))),
          distances := some [(1 : ℚ)/2, (3 : ℚ)/2] }
        (some { best := pyListMin [(1 : ℚ)/2, (3 : ℚ)/2],
                average := ([(1 : ℚ)/2, (3 : ℚ)/2].sum /
                  (([(1 : ℚ)/2, (3 : ℚ)/2].length : Nat) : ℚ)),
                bestShown := fmt4 (pyListMin [(1 : ℚ)/2, (3 : ℚ)/2]),
                averageShown := fmt4 ([(1 : ℚ)/2, (3 : ℚ)/2].sum /
                  (([(1 : ℚ)/2, (3 : ℚ)/2].length : Nat) : ℚ)) }) := by
  refine ⟨by decide, by decide, ?_⟩
  exact c8_distance_stats
    ({ ids := [["a", "b"]], documents := some [["d1", "d2"]], metadatas := none,
       distances := some [[(1 : ℚ)/2, (3 : ℚ)/2]] } : QueryResponse Nat)
    [(1 : ℚ)/2, (3 : ℚ)/2] [] (by decide) rfl (by decide)

/-- C9: the browse executor calls the paged fetch with exactly the given
limit and offset; when the returned ids list is non-empty it shows a table
built only from the returned ids / documents / metadatas (never embeddings —
the rendering is invariant under the page's embeddings field) and reports the
range items offset to offset + countReturned, where countReturned is the
number of ids returned; when the returned ids list is empty it reports the
no-items state as a normal termination. -/
theorem c9_browse {δ μ ε : Type} (fetch : Nat → Nat → Page δ μ ε)
    (browse_limit browse_offset : Nat) (_hl : 1 ≤ browse_limit) :
    browse fetch browse_limit browse_offset =
      renderBrowse browse_offset (fetch browse_limit browse_offset) ∧
    ((fetch browse_limit browse_offset).ids ≠ [] →
      browse fetch browse_limit browse_offset = BrowseOutcome.shown
        { ids := some (fetch browse_limit browse_offset).ids
          documents :=
            if pyTruthy (fetch browse_limit browse_offset).documents then
              (fetch browse_limit browse_offset).documents else none
          metadatas :=
            if pyTruthy (fetch browse_limit browse_offset).metadatas then
              (fetch browse_limit browse_offset).metadatas else none }
        browse_offset
        (browse_offset + (fetch browse_limit browse_offset).ids.length)) ∧
    ((fetch browse_limit browse_offset).ids = [] →
      browse fetch browse_limit browse_offset = BrowseOutcome.noItems) ∧
    (∀ page' : Page δ μ ε, page'.ids = (fetch browse_limit browse_offset).ids →
      page'.documents = (fetch browse_limit browse_offset).documents →
      page'.metadatas = (fetch browse_limit browse_offset).metadatas →
      renderBrowse browse_offset page' =
        renderBrowse browse_offset (fetch browse_limit browse_offset)) := by
  refine ⟨rfl, ?_, ?_, ?_⟩
  · intro h
    exact renderBrowse_shown browse_offset (fetch browse_limit browse_offset) h
  · intro h
    have hE : (fetch browse_limit browse_offset).ids.isEmpty = true := by
      rw [h]; rfl
    simp [browse, renderBrowse, hE]
  · intro page' h1 h2 h3
    unfold renderBrowse
    rw [h1, h2, h3]

/-- Witness for C9: limit 10, offset 0 against a 4-item page gives a 4-row
table and the range items 0 to 4. -/
theorem c9_witness :
    (1 : Nat) ≤ 10 ∧
    (["a", "b", "c", "d"] : List String) ≠ [] ∧
    browse (fun _ _ =>
        ({ ids := ["a", "b", "c", "d"], documents := some ["w", "x", "y", "z"],
           metadatas := none, embeddings := none } : Page String Nat Nat)) 10 0 =
      BrowseOutcome.shown
        { ids := some ["a", "b", "c", "d"], documents := some ["w", "x", "y", "z"],
          metadatas := none } 0 4 := by
  refine ⟨by decide, by decide, ?_⟩
  have h := (c9_browse (fun _ _ =>
      ({ ids := ["a", "b", "c", "d"], documents := some ["w", "x", "y", "z"],
         metadatas := none, embeddings := none } : Page String Nat Nat)) 10 0
    (by decide)).2.1 (by decide)
  exact h

end ChromaViewer
